import Mathlib

/-! Verification of the auto-testid attribute-injection engine.

Shallow embedding of the core of the `auto-testid` repository
(`packages/core/src`): the identifier generator (`id-generator.ts`),
the sanitation and eligibility utilities (`utils/validation.ts`),
the structural Vue-SFC parser and rewriter (`parsers/vue-parser.ts`),
the abstract control flow of the React transform path, and the
post-parse per-file engine pipeline (`AutoTestIDCoreImpl.processFile`).

JavaScript strings are modelled as `List Char` (named `Str`); the
handful of regular expressions used by the source are transcribed as
explicit character-level scanners.  `String.prototype.toLowerCase` is
modelled on the ASCII range, which is exact for every input considered
here.  `Date.now()` is passed in as an explicit `now : Nat` parameter.
Sets of strings (`Set<string>` in the source) are modelled as lists
with membership, which is faithful because the code only ever queries
membership and inserts.
-/

namespace AutoTestID

/-- JavaScript strings, modelled as lists of characters. -/
abbrev Str := List Char

/-- Conversion from Lean string literals into the model. -/
def str (s : String) : Str := s.toList

/-- The single-quote character (written via its code point). -/
def squote : Char := Char.ofNat 39

/-- ASCII lowercase conversion, the fragment of
`String.prototype.toLowerCase` exercised by the embedded code. -/
def jsToLower (c : Char) : Char :=
  if 'A' ≤ c ∧ c ≤ 'Z' then Char.ofNat (c.toNat + 32) else c

/-- ASCII uppercase conversion (`String.prototype.toUpperCase`). -/
def jsToUpper (c : Char) : Char :=
  if 'a' ≤ c ∧ c ≤ 'z' then Char.ofNat (c.toNat - 32) else c

/-- The whitespace class `\s` of JavaScript regexes, restricted to the
ASCII characters that can occur in the inputs considered here. -/
def jsSpace (c : Char) : Bool :=
  c = ' ' ∨ c = '\t' ∨ c = '\n' ∨ c = '\x0d' ∨ c = '\x0b' ∨ c = '\x0c'

/-- Decimal digit test (`[0-9]`). -/
def isDigitCh (c : Char) : Bool := '0' ≤ c ∧ c ≤ '9'

/-- ASCII letter test (`[a-zA-Z]`). -/
def isAlphaCh (c : Char) : Bool := ('a' ≤ c ∧ c ≤ 'z') ∨ ('A' ≤ c ∧ c ≤ 'Z')

/-- The class `[a-z0-9_-]` of characters that survive test-id
sanitation. -/
def validIdChar (c : Char) : Bool :=
  ('a' ≤ c ∧ c ≤ 'z') ∨ isDigitCh c ∨ c = '_' ∨ c = '-'

/-- The class `[a-z0-9]`. -/
def lowerAlnum (c : Char) : Bool := ('a' ≤ c ∧ c ≤ 'z') ∨ isDigitCh c

/-- Source `String.prototype.split('\n')`. -/
def splitLines (s : Str) : List Str :=
  s.foldr
    (fun c acc =>
      if c = '\n' then [] :: acc
      else
        match acc with
        | [] => [[c]]
        | a :: as => (c :: a) :: as)
    [[]]

/-- Source `Array.prototype.join('\n')`. -/
def joinLines (ls : List Str) : Str := (ls.intersperse (str "\n")).flatten

/-- Source `String.prototype.trim()`. -/
def jsTrim (s : Str) : Str :=
  ((s.dropWhile jsSpace).reverse.dropWhile jsSpace).reverse

/-- Whether `pat` is a prefix of `s` (used for `startsWith`). -/
def startsWith (s pat : Str) : Bool :=
  match pat, s with
  | [], _ => true
  | _ :: _, [] => false
  | p :: ps, c :: cs => p = c ∧ startsWith cs ps

/-- Whether `pat` is a suffix of `s` (used for `endsWith`). -/
def endsWith (s pat : Str) : Bool := startsWith s.reverse pat.reverse

/-- Splitting on runs of whitespace (`split(/\s+/)`) with empty tokens
dropped.  The source always follows the split by a filter on a minimum
token length, so the possible empty first/last fields of the JavaScript
split never survive; dropping them here is observationally equal. -/
def splitWsAux : Str → Str → List Str
  | [], acc => if acc = [] then [] else [acc.reverse]
  | c :: cs, acc =>
    if jsSpace c then
      (if acc = [] then splitWsAux cs [] else acc.reverse :: splitWsAux cs [])
    else splitWsAux cs (c :: acc)

/-- See `splitWsAux`; tokens are accumulated left to right. -/
def splitWs (s : Str) : List Str := splitWsAux s []

/-- Decimal rendering of a natural number (JavaScript template
interpolation of a number). -/
def natToStr (n : Nat) : Str := (toString n).toList

/-- One base-36 digit (`0-9a-z`), as produced by `Number.toString(36)`. -/
def base36Digit (n : Nat) : Char :=
  if n < 10 then Char.ofNat ('0'.toNat + n) else Char.ofNat ('a'.toNat + (n - 10))

/-- Base-36 rendering of a natural number (`Date.now().toString(36)`). -/
def natToBase36 (n : Nat) : Str :=
  let rec go (fuel n : Nat) (acc : Str) : Str :=
    match fuel with
    | 0 => acc
    | fuel + 1 =>
      if n = 0 then acc
      else go fuel (n / 36) (base36Digit (n % 36) :: acc)
  if n = 0 then str "0" else go n n []

end AutoTestID

namespace AutoTestID

/-! Section: `ValidationUtils.sanitizeTestId` (utils/validation.ts, lines 219-243) -/

/-- Source `.toLowerCase().replace(/[^a-z0-9_-]/g, '-')`. -/
def replInvalid (s : Str) : Str :=
  s.map (fun c => let l := jsToLower c; if validIdChar l then l else '-')

/-- Source `.replace(/^[0-9]+/, '')` — strip one leading run of digits. -/
def dropLeadingDigits (s : Str) : Str := s.dropWhile isDigitCh

/-- Helper for collapsing hyphen runs: the flag records whether the
previous character was a (kept) hyphen. -/
def collapseAux : Str → Bool → Str
  | [], _ => []
  | c :: cs, prevHyphen =>
    if c = '-' then
      (if prevHyphen then collapseAux cs true else '-' :: collapseAux cs true)
    else c :: collapseAux cs false

/-- The global replace collapsing every run of hyphens to a single
hyphen. -/
def collapseHyphens (s : Str) : Str := collapseAux s false

/-- Source `.replace(/^-+|-+$/g, '')` — trim leading and trailing hyphen runs. -/
def trimHyphens (s : Str) : Str :=
  ((s.dropWhile (· = '-')).reverse.dropWhile (· = '-')).reverse

/-- The replace trimming a trailing hyphen run only (applied after
truncation). -/
def trimTrailingHyphens (s : Str) : Str :=
  (s.reverse.dropWhile (· = '-')).reverse

/-- The four chained `replace` calls of `sanitizeTestId` before the
length check. -/
def cleanupId (s : Str) : Str :=
  trimHyphens (collapseHyphens (dropLeadingDigits (replInvalid s)))

/-- The truncation step: when a maximum length is supplied (and
nonzero, the truthiness guard) and exceeded, truncate and trim the
trailing hyphen run the cut may leave. -/
def truncStep (s : Str) (maxLength : Option Nat) : Str :=
  match maxLength with
  | some m => if m ≠ 0 ∧ s.length > m then trimTrailingHyphens (s.take m) else s
  | none => s

/-- The final emptiness fallback. -/
def fallbackIfEmpty (s : Str) : Str := if s = [] then str "element" else s

/-- Source `ValidationUtils.sanitizeTestId(id, maxLength?)`.  A JavaScript
`undefined` max length is `none`. -/
def sanitizeTestId (id : Str) (maxLength : Option Nat) : Str :=
  if id = [] then []
  else fallbackIfEmpty (truncStep (cleanupId id) maxLength)

example : sanitizeTestId (str "Hello World!") (some 50) = str "hello-world" := by decide
example : sanitizeTestId (str "123abc") none = str "abc" := by decide
example : sanitizeTestId (str "abcdefgh-jklm") (some 9) = str "abcdefgh" := by decide
example : sanitizeTestId (str "!!!") (some 50) = str "element" := by decide
example : sanitizeTestId [] (some 50) = [] := by decide

end AutoTestID

namespace AutoTestID

/-! Section: Data model (packages/core/src/index.ts) -/

/-- Diagnostic severity. -/
inductive Severity
  | error
  | warning
  | info
deriving DecidableEq, Repr

/-- Source `SourcePosition`: 1-based line and column plus absolute offset. -/
structure SourcePosition where
  line : Nat
  column : Nat
  index : Nat
deriving DecidableEq, Repr

/-- Source `Element`: one markup node.  Attributes are an association list in
insertion order (JavaScript object keys are unique; `putAttr` below
overwrites).  `children` is omitted: no embedded code reads it. -/
structure Element where
  tag : Str
  attributes : List (Str × Str)
  content : Option Str := none
  position : Option SourcePosition := none
deriving DecidableEq, Repr

/-- Attribute lookup (`element.attrs[name]`). -/
def getAttr (e : Element) (name : Str) : Option Str :=
  (e.attributes.find? (fun p => p.1 = name)).map (·.2)

/-- Attribute insertion with overwrite (`attributes[name] = value`). -/
def putAttr (attrs : List (Str × Str)) (name v : Str) : List (Str × Str) :=
  if attrs.any (fun p => p.1 = name) then
    attrs.map (fun p => if p.1 = name then (p.1, v) else p)
  else attrs ++ [(name, v)]

/-- Naming-strategy discriminator (`NamingStrategy.type`). -/
inductive StrategyType
  | kebab
  | camel
  | snake
  | custom
deriving DecidableEq, Repr

/-- Source `NamingStrategy`: a discriminator plus the optional custom
transform. -/
structure NamingStrategy where
  type : StrategyType
  customTransform : Option (Str → Str) := none

/-- Source `GenerationContext` (the fields the generator reads).  The source
field `prefix` is called `pfx` here. -/
structure GenerationContext where
  component : Option Str := none
  existingIds : List Str
  namingStrategy : NamingStrategy
  pfx : Option Str := none

/-! Section: `IDGenerator` (generators/id-generator.ts) -/

/-- Source `SEMANTIC_KEYWORDS`, flattened in declaration order
(actions, navigation, forms, content, layout, status). -/
def allSemanticKeywords : List Str :=
  [str "click", str "submit", str "cancel", str "close", str "open", str "save",
   str "delete", str "edit", str "add", str "remove",
   str "nav", str "menu", str "link", str "breadcrumb", str "tab", str "page",
   str "home", str "back", str "next",
   str "form", str "input", str "field", str "select", str "option",
   str "checkbox", str "radio", str "textarea", str "label",
   str "title", str "heading", str "text", str "content", str "description",
   str "summary", str "detail",
   str "header", str "footer", str "sidebar", str "main", str "container",
   str "wrapper", str "section",
   str "success", str "error", str "warning", str "info", str "loading",
   str "disabled", str "active", str "selected"]

/-- Membership in a list of strings (`Array.includes` / `Set.has`). -/
def memS (l : List Str) (x : Str) : Bool := l.any (· = x)

/-- Source `ELEMENT_MAPPINGS`: the static tag-to-short-name table. -/
def elementMapping (tag : Str) : Option Str :=
  (([(str "button", str "btn"), (str "input", str "input"),
     (str "select", str "select"), (str "textarea", str "textarea"),
     (str "form", str "form"), (str "div", str "container"),
     (str "span", str "text"), (str "img", str "image"),
     (str "a", str "link"), (str "h1", str "heading"),
     (str "h2", str "heading"), (str "h3", str "heading"),
     (str "h4", str "heading"), (str "h5", str "heading"),
     (str "h6", str "heading"), (str "p", str "paragraph"),
     (str "ul", str "list"), (str "ol", str "list"),
     (str "li", str "item"), (str "table", str "table"),
     (str "tr", str "row"), (str "td", str "cell"),
     (str "th", str "header")] : List (Str × Str)).find?
    (fun p => p.1 = tag)).map (·.2)

/-- Source `extractKeywords`: lowercase, turn hyphens/underscores into spaces,
split on whitespace, keep tokens longer than one character, and list
vocabulary matches before the remaining tokens, capped at three. -/
def extractKeywords (text : Str) : List Str :=
  if text = [] then []
  else
    let words :=
      (splitWs ((text.map jsToLower).map
        (fun c => if c = '-' ∨ c = '_' then ' ' else c))).filter
        (fun w => w.length > 1)
    let semanticWords := words.filter (fun w => memS allSemanticKeywords w)
    (semanticWords ++ words.filter (fun w => ¬ memS semanticWords w)).take 3

/-- Source `extractContentKeywords`: lowercase, strip non-alphanumerics to
spaces, keep tokens of length 3 to 14; vocabulary matches are capped at
three, and when none match the first two raw tokens are used. -/
def extractContentKeywords (content : Str) : List Str :=
  if (jsTrim content).length = 0 then []
  else
    let words :=
      (splitWs ((content.map jsToLower).map
        (fun c => if lowerAlnum c ∨ jsSpace c then c else ' '))).filter
        (fun w => w.length > 2 ∧ w.length < 15)
    let semanticWords := words.filter (fun w => memS allSemanticKeywords w)
    if semanticWords = [] ∧ words ≠ [] then words.take 2
    else semanticWords.take 3

/-- Truthy attribute access: JavaScript `attrs[n]` guarded by
`if (value ...)`, so a missing or empty value contributes nothing. -/
def truthyAttr (e : Element) (name : Str) : Option Str :=
  match getAttr e name with
  | some v => if v = [] then none else some v
  | none => none

/-- Source `extractMeaningfulAttributes`: keywords of the values of
name/id/type/role/title/alt/placeholder, in that order. -/
def extractMeaningfulAttributes (e : Element) : List Str :=
  ([str "name", str "id", str "type", str "role", str "title", str "alt",
    str "placeholder"].map (fun an =>
      match truthyAttr e an with
      | some v => extractKeywords v
      | none => [])).flatten

/-- Source `extractAriaSemantics`: keywords of aria-label, aria-describedby,
aria-labelledby and role values. -/
def extractAriaSemantics (e : Element) : List Str :=
  ([str "aria-label", str "aria-describedby", str "aria-labelledby",
    str "role"].map (fun an =>
      match truthyAttr e an with
      | some v => extractKeywords v
      | none => [])).flatten

/-- Source `extractClassSemantics`: first two keyword tokens of the class
attribute (`className` falling back to `class`). -/
def extractClassSemantics (e : Element) : List Str :=
  let className :=
    match truthyAttr e (str "className") with
    | some v => v
    | none =>
      match truthyAttr e (str "class") with
      | some v => v
      | none => []
  if className = [] then []
  else ((splitWs className).map extractKeywords).flatten.take 2

/-- Source `extractSemanticParts`: attribute keywords, then content keywords,
then ARIA keywords, then class keywords, with empty parts dropped. -/
def extractSemanticParts (e : Element) : List Str :=
  (extractMeaningfulAttributes e ++
    (match e.content with
     | some c => if c = [] then [] else extractContentKeywords c
     | none => []) ++
    extractAriaSemantics e ++
    extractClassSemantics e).filter (fun p => p.length > 0)

/-- Splitting on a single character, keeping empty fields
(`String.prototype.split('-')`). -/
def splitOnChar (sep : Char) (s : Str) : List Str :=
  s.foldr
    (fun c acc =>
      if c = sep then [] :: acc
      else
        match acc with
        | [] => [[c]]
        | a :: as => (c :: a) :: as)
    [[]]

/-- Source `getElementType`: the mapping table, else the final hyphen segment
of a custom-element tag, else the lowercased tag itself. -/
def getElementType (e : Element) : Str :=
  let tag := e.tag.map jsToLower
  match elementMapping tag with
  | some t => t
  | none =>
    if tag.any (· = '-') then (splitOnChar '-' tag).getLastD []
    else tag

/-- Source `sanitizeComponent`: lowercase, strip a trailing "component",
replace non-alphanumerics with hyphens, collapse and trim hyphens. -/
def sanitizeComponent (component : Str) : Str :=
  let s := component.map jsToLower
  let s := if endsWith s (str "component") then s.take (s.length - 9) else s
  trimHyphens (collapseHyphens (s.map (fun c => if lowerAlnum c then c else '-')))

/-- Order-preserving deduplication (`[...new Set(components)]`). -/
def dedupAux : List Str → List Str → List Str
  | _, [] => []
  | seen, x :: xs =>
    if seen.any (· = x) then dedupAux seen xs
    else x :: dedupAux (x :: seen) xs

/-- See `dedupAux`. -/
def dedupFirst (l : List Str) : List Str := dedupAux [] l

/-- Joining with a single-character separator (`Array.join`). -/
def joinSep (sep : Char) (l : List Str) : Str := (l.intersperse [sep]).flatten

/-- Source `component.charAt(0).toUpperCase() + component.slice(1).toLowerCase()`. -/
def capFirstLowerRest : Str → Str
  | [] => []
  | c :: cs => jsToUpper c :: cs.map jsToLower

/-- The camelCase reduce of `combineComponents`. -/
def camelJoin : List Str → Str
  | [] => []
  | x :: xs => x.map jsToLower ++ (xs.map capFirstLowerRest).flatten

/-- Source `combineComponents`. -/
def combineComponents (components : List Str) (strategy : NamingStrategy) : Str :=
  if components = [] then str "element"
  else
    let unique := dedupFirst components
    match strategy.type with
    | .kebab => joinSep '-' unique
    | .camel => camelJoin unique
    | .snake => joinSep '_' unique
    | .custom =>
      match strategy.customTransform with
      | some f => f (joinSep '-' unique)
      | none => joinSep '-' unique

/-- Source `getSeparator` (the `custom` case falls into the default branch). -/
def getSeparator : StrategyType → Str
  | .kebab => str "-"
  | .snake => str "_"
  | .camel => []
  | .custom => str "-"

/-- Source `applyPrefix` from the source (renamed `applyPfx`). -/
def applyPfx (id pfxStr : Str) (strategy : NamingStrategy) : Str :=
  pfxStr ++ getSeparator strategy.type ++ id

/-- One conflict-ladder candidate: `id-N`, switching to the truncated
base once `N > 10` for ids longer than 30 characters. -/
def candidate (id : Str) (attempts : Nat) : Str :=
  let r := id ++ '-' :: natToStr attempts
  if attempts > 10 ∧ id.length > 30 then id.take 25 ++ '-' :: natToStr attempts
  else r

/-- The `while (existingIds.has(resolvedId) && attempts < 100)` loop of
`resolveConflicts`; `fuel` is `100 - attempts`. -/
def resolveGo (id : Str) (s : List Str) : Nat → Nat → Str → Str
  | 0, _, resolvedId => resolvedId
  | fuel + 1, attempts, resolvedId =>
    if memS s resolvedId then
      resolveGo id s fuel (attempts + 1) (candidate id (attempts + 1))
    else resolvedId

/-- Source `IDGenerator.resolveConflicts(id, existingIds)`; `now` stands for
`Date.now()` used by the timestamp fallback. -/
def resolveConflicts (id : Str) (existingIds : List Str) (now : Nat) : Str :=
  if ¬ memS existingIds id then id
  else
    let r := resolveGo id existingIds 100 0 id
    if memS existingIds r then id ++ '-' :: natToBase36 now else r

/-- Source `IDGenerator.generate(element, context)`: assemble components,
join per strategy, apply the prefix, resolve conflicts, and sanitize
with the hard-coded maximum length 50. -/
def generate (e : Element) (ctx : GenerationContext) (now : Nat) : Str :=
  let components :=
    (match ctx.component with
     | some c => if c = [] then [] else [sanitizeComponent c]
     | none => []) ++ extractSemanticParts e
  let elementType := getElementType e
  let components :=
    if elementType ≠ [] ∧ ¬ memS components elementType then
      components ++ [elementType]
    else components
  let baseId := combineComponents components ctx.namingStrategy
  let baseId :=
    match ctx.pfx with
    | some p => if p = [] then baseId else applyPfx baseId p ctx.namingStrategy
    | none => baseId
  let uniqueId := resolveConflicts baseId ctx.existingIds now
  sanitizeTestId uniqueId (some 50)

/-- The kebab-case strategy value used throughout the tests. -/
def kebabStrategy : NamingStrategy := ⟨.kebab, none⟩

example :
    generate
      ⟨str "button", [(str "type", str "submit")], some (str "Sign In"),
        some ⟨3, 1, 0⟩⟩
      ⟨some (str "LoginForm"), [], kebabStrategy, some (str "test")⟩ 0 =
    str "test-loginform-submit-sign-btn" := by decide

example : resolveConflicts (str "test-btn") [] 0 = str "test-btn" := by decide
example :
    resolveConflicts (str "test-btn") [str "test-btn", str "test-btn-1"] 0 =
    str "test-btn-2" := by decide

end AutoTestID

namespace AutoTestID

/-! Section: `ValidationUtils.shouldAddTestId` (utils/validation.ts, lines 248-266) -/

/-- The fixed list of tags the filter always skips. -/
def skipElements : List Str :=
  [str "html", str "head", str "meta", str "title", str "style", str "script",
   str "link"]

/-- Source `ValidationUtils.shouldAddTestId(element, includeElementTypes)`. -/
def shouldAddTestId (e : Element) (includeElementTypes : List Str) : Bool :=
  if (truthyAttr e (str "data-testid")).isSome then false
  else if ¬ memS includeElementTypes (e.tag.map jsToLower) then false
  else if memS skipElements (e.tag.map jsToLower) then false
  else true

/-! Section: `VueParser.parseSFC` (parsers/vue-parser.ts, lines 154-227) -/

/-- One recorded SFC section. -/
structure SFCSection where
  content : Str
  startLine : Nat
  endLine : Nat
deriving DecidableEq, Repr

/-- The three recognized section slots. -/
structure SFCStructure where
  template : Option SFCSection := none
  script : Option SFCSection := none
  style : Option SFCSection := none
deriving DecidableEq, Repr

/-- Names of the three section slots. -/
inductive SectionName
  | template
  | script
  | style
deriving DecidableEq, Repr

/-- Source `VueParser.saveSection`: unconditionally overwrite the slot with
the joined content and computed start/end lines. -/
def saveSection (sections : SFCStructure) (name : SectionName)
    (content : List Str) (startLine : Nat) : SFCStructure :=
  let sec : SFCSection := ⟨joinLines content, startLine, startLine + content.length - 1⟩
  match name with
  | .template => { sections with template := some sec }
  | .script => { sections with script := some sec }
  | .style => { sections with style := some sec }

/-- Scanner state of the `parseSFC` line loop. -/
structure SFCState where
  sections : SFCStructure
  current : Option SectionName
  content : List Str
  startLine : Nat
deriving DecidableEq, Repr

/-- One iteration of the `parseSFC` loop, for line `line` at 0-based
index `i`. -/
def parseSFCStep (st : SFCState) (i : Nat) (line : Str) : SFCState :=
  let trimmedLine := jsTrim line
  let saveCurrent : SFCStructure :=
    match st.current with
    | some n => saveSection st.sections n st.content st.startLine
    | none => st.sections
  if startsWith trimmedLine (str "<template") then
    ⟨saveCurrent, some .template, [], i + 1⟩
  else if startsWith trimmedLine (str "<script") then
    ⟨saveCurrent, some .script, [], i + 1⟩
  else if startsWith trimmedLine (str "<style") then
    ⟨saveCurrent, some .style, [], i + 1⟩
  else if startsWith trimmedLine (str "</template>") ∨
      startsWith trimmedLine (str "</script>") ∨
      startsWith trimmedLine (str "</style>") then
    match st.current with
    | some n => ⟨saveSection st.sections n st.content st.startLine, none, [], st.startLine⟩
    | none => st
  else
    match st.current with
    | some _ => { st with content := st.content ++ [line] }
    | none => st

/-- The `parseSFC` loop; `i` is the 0-based index of the next line. -/
def parseSFCGo (st : SFCState) (i : Nat) : List Str → SFCState
  | [] => st
  | line :: rest => parseSFCGo (parseSFCStep st i line) (i + 1) rest

/-- The trailing save of a still-open section after the loop. -/
def finishSFC (st : SFCState) : SFCStructure :=
  match st.current with
  | some n => saveSection st.sections n st.content st.startLine
  | none => st.sections

/-- Source `VueParser.parseSFC` on a pre-split line list. -/
def parseSFCLines (lines : List Str) : SFCStructure :=
  finishSFC (parseSFCGo ⟨⟨none, none, none⟩, none, [], 0⟩ 0 lines)

/-- Source `VueParser.parseSFC(content)`. -/
def parseSFC (content : Str) : SFCStructure := parseSFCLines (splitLines content)

/-! Section: `VueParser.parseAttributes` (lines 297-314) -/

/-- The attribute-name character class of the token pattern
(colon, word characters, hyphen, at-sign). -/
def attrNameChar (c : Char) : Bool :=
  c = ':' ∨ isAlphaCh c ∨ isDigitCh c ∨ c = '_' ∨ c = '-' ∨ c = '@'

/-- Double or single quote. -/
def quoteCh (c : Char) : Bool := c = '"' ∨ c = squote

/-- The global scan of the attribute token pattern: an attribute name
is a run of name characters, optionally followed by a quoted value; an
unterminated value degrades to a bare name, exactly as the optional
group of the regex does. -/
def parseAttributesGo (fuel : Nat) (s : Str) (acc : List (Str × Str)) :
    List (Str × Str) :=
  match fuel with
  | 0 => acc
  | fuel + 1 =>
    match s with
    | [] => acc
    | c :: cs =>
      if attrNameChar c then
        let nm := s.takeWhile attrNameChar
        let rest := s.dropWhile attrNameChar
        match rest with
        | '=' :: q :: tail =>
          if quoteCh q then
            let v := tail.takeWhile (fun d => ¬ quoteCh d)
            match tail.dropWhile (fun d => ¬ quoteCh d) with
            | _ :: tail3 => parseAttributesGo fuel tail3 (putAttr acc nm v)
            | [] => parseAttributesGo fuel rest (putAttr acc nm [])
          else parseAttributesGo fuel rest (putAttr acc nm [])
        | _ => parseAttributesGo fuel rest (putAttr acc nm [])
      else parseAttributesGo fuel cs acc

/-- Source `VueParser.parseAttributes(attributesString)`. -/
def parseAttributes (s : Str) : List (Str × Str) :=
  if jsTrim s = [] then [] else parseAttributesGo (s.length + 1) s []

/-! Section: `VueParser.parseTemplate` (lines 229-295) -/

/-- Tag-name characters after the leading letter (`[a-zA-Z0-9-]`). -/
def tagNameChar (c : Char) : Bool := isAlphaCh c ∨ isDigitCh c ∨ c = '-'

/-- One match of the opening-tag pattern. -/
structure TagMatch where
  startIdx : Nat
  fullMatch : Str
  tagName : Str
  attrsString : Str
deriving DecidableEq, Repr

/-- All successive matches of the opening-tag pattern
(letter-led tag name, optional whitespace, an attribute blob up to the
first closing angle bracket) starting from absolute index `idx`. -/
def findTags (fuel : Nat) (s : Str) (idx : Nat) : List TagMatch :=
  match fuel, s with
  | 0, _ => []
  | _, [] => []
  | fuel + 1, c :: cs =>
    if c = '<' then
      match cs with
      | d :: _ =>
        if isAlphaCh d then
          let tagName := cs.takeWhile tagNameChar
          let rest := cs.dropWhile tagNameChar
          if rest.any (· = '>') then
            let inner := rest.takeWhile (· ≠ '>')
            let attrsString := inner.dropWhile jsSpace
            let fullLen := 1 + tagName.length + inner.length + 1
            let fullMatch := (c :: cs).take fullLen
            let tail := (rest.dropWhile (· ≠ '>')).drop 1
            ⟨idx, fullMatch, tagName, attrsString⟩ ::
              findTags fuel tail (idx + fullLen)
          else []
        else findTags fuel cs (idx + 1)
      | [] => []
    else findTags fuel cs (idx + 1)

/-- First match of the same-line content pattern: the opening tag,
then text free of angle brackets, then the matching closing tag;
returns the captured text. -/
def findContentGo (fuel : Nat) (s : Str) (tag : Str) : Option Str :=
  match fuel, s with
  | 0, _ => none
  | _, [] => none
  | fuel + 1, c :: cs =>
    if startsWith (c :: cs) ('<' :: tag) then
      let rest := (c :: cs).drop (1 + tag.length)
      if rest.any (· = '>') then
        let afterGt := (rest.dropWhile (· ≠ '>')).drop 1
        let contentPart := afterGt.takeWhile (· ≠ '<')
        let closer := afterGt.dropWhile (· ≠ '<')
        if startsWith closer ('<' :: '/' :: tag ++ ['>']) then some contentPart
        else findContentGo fuel cs tag
      else none
    else findContentGo fuel cs tag

/-- Source `ValidationUtils.validateElement`, reduced to the checks that can
fail in this model: the tag must be a non-empty string.  (Attribute
maps, optional positions with `Nat` coordinates and the fixed
framework tag always validate.) -/
def validateElementOk (e : Element) : Bool := e.tag ≠ []

/-- Source `VueParser.parseTemplate(templateContent, baseLineNumber)`:
line-by-line scan for opening tags, skipping blank and comment lines
and self-closing matches; positions are 1-based, with the line
computed as `baseLineNumber + i + 1`. -/
def parseTemplate (templateContent : Str) (baseLineNumber : Nat) : List Element :=
  ((splitLines templateContent).enum.map (fun p =>
    let i := p.1
    let line := p.2
    let trimmedLine := jsTrim line
    if trimmedLine = [] ∨ startsWith trimmedLine (str "<!--") then []
    else
      (findTags (line.length + 1) line 0).filterMap (fun m =>
        if endsWith m.fullMatch (str "/>") then none
        else
          let attributes := parseAttributes m.attrsString
          let content :=
            match findContentGo (line.length + 1) line m.tagName with
            | some c => let t := jsTrim c; if t = [] then none else some t
            | none => none
          let e : Element :=
            ⟨m.tagName, attributes, content,
              some ⟨baseLineNumber + i + 1, m.startIdx + 1, m.startIdx⟩⟩
          if validateElementOk e then some e else none))).flatten

/-! Section: Parse results and `VueParser.parse` (lines 22-80) -/

/-- A parse diagnostic.  (`ParseMetadata` is omitted: no claim reads
it and it carries no control flow.) -/
structure ParseError where
  message : Str
  position : Option SourcePosition := none
  severity : Severity
deriving DecidableEq, Repr

/-- The element list plus diagnostics a parser returns. -/
structure ParseResult where
  elements : List Element
  errors : List ParseError
deriving DecidableEq, Repr

/-- Source `VueParser.parse(content, filePath)`: a missing template section
yields zero elements and a warning; otherwise the template section is
scanned.  (Nothing in the embedded scanners can throw, so the
catch-all error branch of the source is unreachable here.) -/
def vueParse (content : Str) : ParseResult :=
  let sections := parseSFC content
  match sections.template with
  | none =>
    ⟨[], [⟨str "No template section found in Vue Single File Component",
      none, .warning⟩]⟩
  | some tpl => ⟨parseTemplate tpl.content tpl.startLine, []⟩

/-! Section: Transformations and the Vue rewriter (lines 82-152, 316-397) -/

/-- Source `Transformation.type`. -/
inductive TransType
  | addAttribute
  | modifyAttribute
  | removeAttribute
deriving DecidableEq, Repr

/-- A planned transformation.  The source field `attribute` is a Lean
keyword and is called `attr` here. -/
structure Transformation where
  type : TransType
  element : Element
  attr : Str
  value : Str
  position : SourcePosition
deriving DecidableEq, Repr

/-- A transform diagnostic. -/
structure TransformError where
  message : Str
  position : Option SourcePosition := none
  severity : Severity
deriving DecidableEq, Repr

/-- The result of `Parser.transform`. -/
structure TransformResult where
  code : Str
  transformations : List Transformation
  errors : List TransformError
deriving DecidableEq, Repr

/-- First match of the opening-tag pattern for one known tag name
(optional whitespace-led attribute part, then the closing angle
bracket); returns the matched substring. -/
def findTagRegexGo (fuel : Nat) (s : Str) (tag : Str) : Option Str :=
  match fuel, s with
  | 0, _ => none
  | _, [] => none
  | fuel + 1, c :: cs =>
    if startsWith (c :: cs) ('<' :: tag) then
      let rest := (c :: cs).drop (1 + tag.length)
      match rest with
      | '>' :: _ => some ('<' :: tag ++ ['>'])
      | r :: rs =>
        if jsSpace r then
          if rs.any (· = '>') then
            some ('<' :: tag ++ r :: rs.takeWhile (· ≠ '>') ++ ['>'])
          else findTagRegexGo fuel cs tag
        else findTagRegexGo fuel cs tag
      | [] => findTagRegexGo fuel cs tag
    else findTagRegexGo fuel cs tag

/-- See `findTagRegexGo`. -/
def findTagRegex (line tag : Str) : Option Str :=
  findTagRegexGo (line.length + 1) line tag

/-- Search for whitespace followed by `attrName=` inside the matched
tag text. -/
def hasAttrGo : Str → Str → Bool
  | [], _ => false
  | c :: cs, pat => (jsSpace c ∧ startsWith cs pat) ∨ hasAttrGo cs pat

/-- See `hasAttrGo`. -/
def hasExistingAttr (tagStr attrName : Str) : Bool :=
  hasAttrGo tagStr (attrName ++ ['='])

/-- The in-place value rewrite: first occurrence of `attrName=`, a
quote, a quote-free run and a closing quote has its run replaced by
`value` (group references keep both quote characters). -/
def updateAttrGo (s : Str) (attrName value : Str) : Option Str :=
  match s with
  | [] => none
  | c :: cs =>
    let fallback : Option Str := (updateAttrGo cs attrName value).map (c :: ·)
    if startsWith (c :: cs) (attrName ++ ['=']) then
      match (c :: cs).drop (attrName.length + 1) with
      | q :: tail =>
        if quoteCh q then
          match tail.dropWhile (fun d => ¬ quoteCh d) with
          | q2 :: tail3 =>
            some (attrName ++ '=' :: q :: value ++ q2 :: tail3)
          | [] => fallback
        else fallback
      | [] => fallback
    else fallback

/-- The no-match case of `String.replace` keeps the string unchanged. -/
def updateAttrInTag (tagStr attrName value : Str) : Str :=
  (updateAttrGo tagStr attrName value).getD tagStr

/-- Insertion of a fresh attribute immediately before the closing
angle bracket (or at the end when the match does not end in one). -/
def insertAttrInTag (tagStr attrName value : Str) : Str :=
  let insertionPoint :=
    if endsWith tagStr (str ">") then tagStr.length - 1 else tagStr.length
  tagStr.take insertionPoint ++
    (' ' :: attrName ++ '=' :: '"' :: value ++ ['"']) ++
    tagStr.drop insertionPoint

/-- Replacement of the first literal occurrence of `target`. -/
def replaceFirstGo (s target repl : Str) : Option Str :=
  match s with
  | [] => none
  | c :: cs =>
    if startsWith (c :: cs) target then some (repl ++ (c :: cs).drop target.length)
    else (replaceFirstGo cs target repl).map (c :: ·)

/-- See `replaceFirstGo`; no occurrence keeps the string unchanged. -/
def replaceFirst (s target repl : Str) : Str := (replaceFirstGo s target repl).getD s

/-- Source `VueParser.applyTransformationToTemplate`: the three `throw` sites
become `Except.error`.  The relative line number is the signed
difference computed by the caller. -/
def applyTransformationToTemplate (templateContent : Str) (t : Transformation)
    (relativeLineNumber : Int) : Except Str Str :=
  if t.type ≠ .addAttribute then
    .error (str "Unsupported transformation type")
  else
    let lines := splitLines templateContent
    if relativeLineNumber < 0 ∨ relativeLineNumber ≥ lines.length then
      .error (str "Invalid line number")
    else
      let rel := relativeLineNumber.toNat
      let line := lines.getD rel []
      match findTagRegex line t.element.tag with
      | none => .error (str "Could not find opening tag")
      | some tagStr =>
        let updatedTag :=
          if hasExistingAttr tagStr t.attr then
            updateAttrInTag tagStr t.attr t.value
          else insertAttrInTag tagStr t.attr t.value
        .ok (joinLines (lines.set rel (replaceFirst line tagStr updatedTag)))

/-- Stable insertion keeping strictly-greater lines first (the
descending sort of the transform loop; equal lines keep their original
relative order, as the stable JavaScript sort does). -/
def insertDesc (t : Transformation) : List Transformation → List Transformation
  | [] => [t]
  | u :: us =>
    if t.position.line > u.position.line then t :: u :: us
    else u :: insertDesc t us

/-- Stable descending sort by source line. -/
def sortDesc (ts : List Transformation) : List Transformation :=
  ts.foldl (fun acc t => insertDesc t acc) []

/-- The transformation loop shared by both parsers: apply each
transformation to the running state; a failing application leaves the
state unchanged and records one diagnostic, and the loop continues. -/
def runTransforms {σ : Type} (app : σ → Transformation → Except Str σ) :
    σ → List Transformation → σ × List TransformError
  | s, [] => (s, [])
  | s, t :: ts =>
    match app s t with
    | .ok s2 => runTransforms app s2 ts
    | .error m =>
      let r := runTransforms app s ts
      (r.1, ⟨str "Failed to apply transformation: " ++ m, some t.position,
        .error⟩ :: r.2)

/-- Source `VueParser.reconstructSFC`. -/
def reconstructSFC (originalContent : Str) (sections : SFCStructure)
    (newTemplateContent : Str) : Str :=
  match sections.template with
  | none => originalContent
  | some tpl =>
    let lines := splitLines originalContent
    joinLines (lines.take tpl.startLine ++ splitLines newTemplateContent ++
      lines.drop (tpl.endLine + 1))

/-- Source `VueParser.transform(content, transformations)`. -/
def vueTransform (content : Str) (transformations : List Transformation) :
    TransformResult :=
  let sections := parseSFC content
  match sections.template with
  | none =>
    ⟨content, [],
      [⟨str "No template section found for transformation", none, .error⟩]⟩
  | some tpl =>
    let sorted := sortDesc transformations
    let r := runTransforms
      (fun tplContent t =>
        applyTransformationToTemplate tplContent t
          ((t.position.line : Int) - (tpl.startLine : Int)))
      tpl.content sorted
    ⟨reconstructSFC content sections r.1, transformations, r.2⟩

/-- Source `ReactParser.transform`, abstracted over the Babel services it
calls: `babelParse` and `babelGenerate` stand for the external
parser/printer (their exceptions are the `error` case), and `applyOne`
stands for one `applyTransformationToJSX` application during the
traversal.  Both whole-file failures fall into the outer catch, which
returns the original content with a single error diagnostic; the
per-transformation loop is the shared `runTransforms`. -/
def reactTransform {α : Type} (babelParse : Except Str α)
    (applyOne : α → Transformation → Except Str α)
    (babelGenerate : α → Except Str Str)
    (content : Str) (transformations : List Transformation) : TransformResult :=
  match babelParse with
  | .error m => ⟨content, [], [⟨str "Transform error: " ++ m, none, .error⟩]⟩
  | .ok ast =>
    let r := runTransforms applyOne ast transformations
    match babelGenerate r.1 with
    | .error m => ⟨content, [], [⟨str "Transform error: " ++ m, none, .error⟩]⟩
    | .ok code => ⟨code, transformations, r.2⟩

end AutoTestID

namespace AutoTestID

/-! Section: The post-parse engine pipeline
(`AutoTestIDCoreImpl.processFile`, index.ts lines 1169-1270)

`processFile` performs I/O (reading and writing the file) around a
pure pipeline; the pipeline from the parse result to the planned
transformations is embedded as `processParsed`, and the content the
pass leaves on disk as `vuePassOutput`.  The `metrics` block is
omitted: it carries timing and counters only. -/

/-- The configuration fields the embedded pipeline reads.  The source
field `prefix` is called `pfx`; `maxIdLength` is carried verbatim from
`ConfigurationSchema` (note that nothing in the generation path reads
it). -/
structure Config where
  namingStrategy : NamingStrategy
  pfx : Option Str := some (str "test")
  includeElementTypes : List Str
  maxIdLength : Nat := 50
  preserveExisting : Bool := true

/-- Source `DEFAULT_CONFIG.includeElementTypes`. -/
def defaultIncludeTypes : List Str :=
  [str "button", str "input", str "select", str "textarea", str "form",
   str "a", str "div", str "span"]

/-- Source `DEFAULT_CONFIG` (the fields carried here). -/
def defaultConfig : Config :=
  ⟨kebabStrategy, some (str "test"), defaultIncludeTypes, 50, true⟩

/-- The per-file outcome of the embedded pipeline. -/
structure EngineResult where
  success : Bool
  transformations : List Transformation
  errors : List TransformError
deriving DecidableEq, Repr

/-- The generation fold of `processFile`: for each eligible element
with a position, build the context (no `component` is ever supplied by
`processFile`), generate, add the result to `existingIds`, and emit an
add-attribute transformation at the element's position. -/
def generationFold (cfg : Config) (now : Nat) :
    List Str × List Transformation → List Element →
    List Str × List Transformation
  | acc, [] => acc
  | acc, e :: es =>
    match e.position with
    | some pos =>
      let ctx : GenerationContext := ⟨none, acc.1, cfg.namingStrategy, cfg.pfx⟩
      let generatedId := generate e ctx now
      generationFold cfg now
        (acc.1 ++ [generatedId],
          acc.2 ++ [⟨.addAttribute, e, str "data-testid", generatedId, pos⟩]) es
    | none => generationFold cfg now acc es

/-- Lines 1171-1239 of `processFile`: any parse diagnostic aborts with
no transformations; otherwise the eligibility filter, the seeding of
`existingIds` from every parsed element's current attribute value, and
the generation fold run. -/
def processParsed (pr : ParseResult) (cfg : Config) (now : Nat) : EngineResult :=
  if pr.errors ≠ [] then
    ⟨false, [], pr.errors.map (fun e => ⟨e.message, e.position, e.severity⟩)⟩
  else
    let elementsToProcess :=
      pr.elements.filter (fun e => shouldAddTestId e cfg.includeElementTypes)
    let existingIds0 := pr.elements.foldl
      (fun acc e =>
        match truthyAttr e (str "data-testid") with
        | some v => acc ++ [v]
        | none => acc) []
    let r := generationFold cfg now (existingIds0, []) elementsToProcess
    ⟨true, r.2, []⟩

/-- The text a non-dry-run Vue pass leaves on disk (lines 1241-1252):
the transformed code only when the transform reported no errors,
otherwise the original content; no write happens at all when no
transformation was planned or the parse aborted. -/
def vuePassOutput (content : Str) (cfg : Config) (now : Nat) : Str :=
  let er := processParsed (vueParse content) cfg now
  if ¬ er.success then content
  else if er.transformations = [] then content
  else
    let tr := vueTransform content er.transformations
    if tr.errors = [] then tr.code else content

/-- The transformations one Vue pass plans for given content. -/
def vuePassTransformations (content : Str) (cfg : Config) (now : Nat) :
    List Transformation :=
  (processParsed (vueParse content) cfg now).transformations

example :
    parseSFC (str "<template>\n<div></div>\n</template>") =
    { template := some ⟨str "<div></div>", 1, 1⟩ } := by decide

example :
    (vueParse (str "<template>\n<div></div>\n</template>")).elements =
    [⟨str "div", [], none, some ⟨2, 1, 0⟩⟩] := by decide

example :
    (vuePassTransformations (str "<template>\n<div></div>\n</template>")
      defaultConfig 0).map (fun t => t.value) =
    [str "test-container"] := by decide

example :
    vuePassOutput (str "<template>\n<div></div>\n</template>")
      defaultConfig 0 =
    str "<template>\n<div></div>\n</template>" := by decide

end AutoTestID

namespace AutoTestID

/-! Section: Concrete inputs used by the verification -/

/-- The end-to-end example element: a submit button with inline text
"Sign In" on line 3. -/
def btnSignIn : Element :=
  ⟨str "button", [(str "type", str "submit")], some (str "Sign In"), some ⟨3, 1, 0⟩⟩

/-- The end-to-end example context: prefix `test`, kebab-case naming,
component `LoginForm`, no pre-existing ids. -/
def ctxLoginForm : GenerationContext :=
  ⟨some (str "LoginForm"), [], kebabStrategy, some (str "test")⟩

/-- A button whose name/title attributes yield a 25-character id. -/
def btnCheckout : Element :=
  ⟨str "button", [(str "name", str "checkout"), (str "title", str "proceed")],
    none, some ⟨2, 1, 0⟩⟩

/-- The default configuration with the maximum identifier length set
to 20. -/
def cfg20 : Config := { defaultConfig with maxIdLength := 20 }

/-- A button whose `name` attribute contains a character that only
sanitation rewrites. -/
def btnPlus (line : Nat) : Element :=
  ⟨str "button", [(str "name", str "a+b")], none, some ⟨line, 1, 0⟩⟩

/-- A clean parse of a file holding two such buttons. -/
def prDupNames : ParseResult := ⟨[btnPlus 2, btnPlus 3], []⟩

/-- A parse result carrying one warning diagnostic next to an eligible
element. -/
def prWarn : ParseResult :=
  ⟨[⟨str "div", [], none, some ⟨2, 1, 0⟩⟩], [⟨str "w", none, .warning⟩]⟩

/-- A minimal Vue SFC: one div inside the template section. -/
def sfcOneDiv : Str := str "<template>\n<div></div>\n</template>"

/-- An SFC with two template open/close pairs. -/
def sfcTwoTemplates : Str :=
  str "<template>\nA\n</template>\n<template>\nB\n</template>"

/-- A 36-character base id. -/
def longBase : Str := str "abcdefghijklmnopqrstuvwxyz0123456789"

/-- Source `longBase` together with `longBase-1` … `longBase-10`. -/
def longPrior : List Str :=
  longBase :: (List.range 10).map (fun k => longBase ++ '-' :: natToStr (k + 1))

/-- A set containing `x` and every ladder candidate `x-1` … `x-100`. -/
def conflictSetX : List Str :=
  str "x" :: (List.range 100).map (fun k => candidate (str "x") (k + 1))

/-- Repeated generation: request an id `n` times, adding each result
to the growing set; returns the final set and the results in order. -/
def requestRepeatedly (id : Str) (now : Nat) : Nat → List Str × List Str
  | 0 => ([], [])
  | n + 1 =>
    let p := requestRepeatedly id now n
    let r := resolveConflicts id p.1 now
    (p.1 ++ [r], p.2 ++ [r])

/-- The expected results of eleven requests for `test-btn`. -/
def expectedEleven : List Str :=
  [str "test-btn", str "test-btn-1", str "test-btn-2", str "test-btn-3",
   str "test-btn-4", str "test-btn-5", str "test-btn-6", str "test-btn-7",
   str "test-btn-8", str "test-btn-9", str "test-btn-10"]

/-- A transformation application that always fails. -/
def failAppStr : Str → Transformation → Except Str Str := fun _ _ => .error []

/-- A code generation step that always fails. -/
def failGen : Str → Except Str Str := fun _ => .error []

/-- A sample transformation. -/
def demoTrans : Transformation :=
  ⟨.addAttribute, ⟨str "div", [], none, none⟩, str "data-testid", str "v",
    ⟨1, 1, 0⟩⟩

/-- The line classifier of the `parseSFC` scanner: does a line open or
close any of the three sections? -/
def isSectionMarker (l : Str) : Bool :=
  startsWith (jsTrim l) (str "<template") ∨ startsWith (jsTrim l) (str "<script") ∨
  startsWith (jsTrim l) (str "<style") ∨ startsWith (jsTrim l) (str "</template>") ∨
  startsWith (jsTrim l) (str "</script>") ∨ startsWith (jsTrim l) (str "</style>")

end AutoTestID

namespace AutoTestID

/-! Section: Helper lemmas -/

theorem truncStep_some (s : Str) (m : Nat) :
    truncStep s (some m) =
      if m ≠ 0 ∧ s.length > m then trimTrailingHyphens (s.take m) else s := rfl

theorem trimTrailingHyphens_length_le (s : Str) :
    (trimTrailingHyphens s).length ≤ s.length := by
  unfold trimTrailingHyphens
  calc ((s.reverse.dropWhile (· = '-')).reverse).length
      = (s.reverse.dropWhile (· = '-')).length := List.length_reverse _
    _ ≤ s.reverse.length := (List.dropWhile_sublist _).length_le
    _ = s.length := List.length_reverse _

theorem sanitizeTestId_length_le (id : Str) (m : Nat) (h7 : 7 ≤ m) :
    (sanitizeTestId id (some m)).length ≤ m := by
  unfold sanitizeTestId
  by_cases hid : id = []
  · simp [hid]
  · rw [if_neg hid]
    unfold fallbackIfEmpty
    rw [truncStep_some]
    by_cases hbig : m ≠ 0 ∧ (cleanupId id).length > m
    · rw [if_pos hbig]
      by_cases hz : trimTrailingHyphens ((cleanupId id).take m) = []
      · rw [if_pos hz]; exact h7
      · rw [if_neg hz]
        calc (trimTrailingHyphens ((cleanupId id).take m)).length
            ≤ ((cleanupId id).take m).length := trimTrailingHyphens_length_le _
          _ = min m (cleanupId id).length := List.length_take m _
          _ ≤ m := min_le_left _ _
    · rw [if_neg hbig]
      by_cases hz : cleanupId id = []
      · rw [if_pos hz]; exact h7
      · rw [if_neg hz]
        push_neg at hbig
        exact hbig (by omega)

theorem generate_length_le (e : Element) (ctx : GenerationContext) (now : Nat) :
    (generate e ctx now).length ≤ 50 := by
  unfold generate
  exact sanitizeTestId_length_le _ 50 (by norm_num)

theorem validIdChar_of_mem_replInvalid {c : Char} {s : Str}
    (h : c ∈ replInvalid s) : validIdChar c = true := by
  unfold replInvalid at h
  rcases List.mem_map.mp h with ⟨x, _, rfl⟩
  show validIdChar (if validIdChar (jsToLower x) = true then jsToLower x else '-') = true
  by_cases hv : validIdChar (jsToLower x) = true
  · rw [if_pos hv]; exact hv
  · rw [if_neg hv]; decide

theorem mem_collapseAux {c : Char} :
    ∀ (s : Str) (b : Bool), c ∈ collapseAux s b → c ∈ s ∨ c = '-' := by
  intro s
  induction s with
  | nil => intro b h; simp [collapseAux] at h
  | cons d ds ih =>
    intro b h
    unfold collapseAux at h
    by_cases hd : d = '-'
    · subst hd
      rw [if_pos rfl] at h
      cases b with
      | true =>
        rw [if_pos rfl] at h
        rcases ih true h with h2 | h2
        · exact Or.inl (List.mem_cons_of_mem _ h2)
        · exact Or.inr h2
      | false =>
        rw [if_neg (by simp)] at h
        rcases List.mem_cons.mp h with h2 | h2
        · exact Or.inr h2
        · rcases ih true h2 with h3 | h3
          · exact Or.inl (List.mem_cons_of_mem _ h3)
          · exact Or.inr h3
    · rw [if_neg hd] at h
      rcases List.mem_cons.mp h with h2 | h2
      · exact Or.inl (h2 ▸ List.mem_cons_self _ _)
      · rcases ih false h2 with h3 | h3
        · exact Or.inl (List.mem_cons_of_mem _ h3)
        · exact Or.inr h3

theorem validIdChar_of_mem_cleanupId {c : Char} {s : Str}
    (h : c ∈ cleanupId s) : validIdChar c = true := by
  unfold cleanupId trimHyphens at h
  rw [List.mem_reverse] at h
  have h2 := (List.dropWhile_sublist _).subset h
  rw [List.mem_reverse] at h2
  have h3 := (List.dropWhile_sublist _).subset h2
  rcases mem_collapseAux _ _ h3 with h4 | h4
  · exact validIdChar_of_mem_replInvalid ((List.dropWhile_sublist _).subset h4)
  · subst h4; decide

theorem validIdChar_of_mem_element : ∀ c ∈ str "element", validIdChar c = true := by
  decide

theorem validIdChar_of_mem_sanitized {c : Char} {id : Str} {m : Nat}
    (h : c ∈ sanitizeTestId id (some m)) : validIdChar c = true := by
  unfold sanitizeTestId at h
  by_cases hid : id = []
  · rw [if_pos hid] at h; simp at h
  · rw [if_neg hid] at h
    unfold fallbackIfEmpty at h
    by_cases hz : truncStep (cleanupId id) (some m) = []
    · rw [if_pos hz] at h
      exact validIdChar_of_mem_element c h
    · rw [if_neg hz] at h
      rw [truncStep_some] at h
      by_cases hbig : m ≠ 0 ∧ (cleanupId id).length > m
      · rw [if_pos hbig] at h
        unfold trimTrailingHyphens at h
        rw [List.mem_reverse] at h
        have h2 := (List.dropWhile_sublist _).subset h
        rw [List.mem_reverse] at h2
        exact validIdChar_of_mem_cleanupId (List.take_subset _ _ h2)
      · rw [if_neg hbig] at h
        exact validIdChar_of_mem_cleanupId h

theorem sanitizeTestId_ne_nil (id : Str) (m : Nat) (hid : id ≠ []) :
    sanitizeTestId id (some m) ≠ [] := by
  unfold sanitizeTestId
  rw [if_neg hid]
  unfold fallbackIfEmpty
  by_cases hz : truncStep (cleanupId id) (some m) = []
  · rw [if_pos hz]; decide
  · rw [if_neg hz]; exact hz

end AutoTestID

namespace AutoTestID

/-! Section: Lemmas about the transformation loop -/

theorem runTransforms_cons_ok {σ : Type} (app : σ → Transformation → Except Str σ)
    {s s2 : σ} {t : Transformation} (h : app s t = .ok s2)
    (ts : List Transformation) :
    runTransforms app s (t :: ts) = runTransforms app s2 ts := by
  simp only [runTransforms]
  rw [h]

theorem runTransforms_cons_err {σ : Type} (app : σ → Transformation → Except Str σ)
    {s : σ} {t : Transformation} {m : Str} (h : app s t = .error m)
    (ts : List Transformation) :
    runTransforms app s (t :: ts) =
      ((runTransforms app s ts).1,
        ⟨str "Failed to apply transformation: " ++ m, some t.position, .error⟩ ::
          (runTransforms app s ts).2) := by
  simp only [runTransforms]
  rw [h]

theorem runTransforms_append {σ : Type} (app : σ → Transformation → Except Str σ)
    (s : σ) (l1 l2 : List Transformation) :
    runTransforms app s (l1 ++ l2) =
      ((runTransforms app (runTransforms app s l1).1 l2).1,
        (runTransforms app s l1).2 ++
          (runTransforms app (runTransforms app s l1).1 l2).2) := by
  induction l1 generalizing s with
  | nil => simp [runTransforms]
  | cons t ts ih =>
    rw [List.cons_append]
    cases happ : app s t with
    | ok s2 =>
      simp only [runTransforms_cons_ok app happ]
      exact ih s2
    | error m =>
      simp only [runTransforms_cons_err app happ]
      rw [ih s]
      simp

/-! Section: Lemmas about the `parseSFC` scanner -/

theorem parseSFCGo_append (l1 l2 : List Str) :
    ∀ (st : SFCState) (i : Nat),
      parseSFCGo st i (l1 ++ l2) =
        parseSFCGo (parseSFCGo st i l1) (i + l1.length) l2 := by
  induction l1 with
  | nil => intro st i; simp [parseSFCGo]
  | cons l ls ih =>
    intro st i
    rw [List.cons_append]
    show parseSFCGo (parseSFCStep st i l) (i + 1) (ls ++ l2) = _
    rw [ih (parseSFCStep st i l) (i + 1)]
    show _ = parseSFCGo (parseSFCGo (parseSFCStep st i l) (i + 1) ls) (i + (ls.length + 1)) l2
    congr 1
    omega

theorem parseSFCStep_nonmarker (st : SFCState) (i : Nat) (l : Str)
    (n : SectionName) (hc : st.current = some n)
    (hm : isSectionMarker l = false) :
    parseSFCStep st i l = { st with content := st.content ++ [l] } := by
  unfold isSectionMarker at hm
  simp only [decide_eq_false_iff_not] at hm
  push_neg at hm
  obtain ⟨h1, h2, h3, h4, h5, h6⟩ := hm
  unfold parseSFCStep
  rw [if_neg h1, if_neg h2, if_neg h3, if_neg (by push_neg; exact ⟨h4, h5, h6⟩)]
  rw [hc]

theorem parseSFCGo_content (ls : List Str) :
    ∀ (st : SFCState) (i : Nat) (n : SectionName), st.current = some n →
      (∀ l ∈ ls, isSectionMarker l = false) →
      parseSFCGo st i ls =
        { sections := st.sections, current := some n,
          content := st.content ++ ls, startLine := st.startLine } := by
  induction ls with
  | nil =>
    intro st i n hc _
    cases st
    simp only at hc
    simp [parseSFCGo, hc]
  | cons l ls ih =>
    intro st i n hc hm
    show parseSFCGo (parseSFCStep st i l) (i + 1) ls = _
    rw [parseSFCStep_nonmarker st i l n hc (hm l (List.mem_cons_self _ _))]
    rw [ih (SFCState.mk st.sections st.current (st.content ++ [l]) st.startLine)
      (i + 1) n hc (fun x hx => hm x (List.mem_cons_of_mem _ hx))]
    simp

theorem parseSFCStep_close (st : SFCState) (i : Nat) (n : SectionName)
    (hc : st.current = some n) :
    parseSFCStep st i (str "</template>") =
      { sections := saveSection st.sections n st.content st.startLine,
        current := none, content := [], startLine := st.startLine } := by
  unfold parseSFCStep
  rw [if_neg (by decide), if_neg (by decide), if_neg (by decide), if_pos (by decide)]
  rw [hc]

theorem parseSFCStep_openTemplate (st : SFCState) (i : Nat)
    (hc : st.current = none) :
    parseSFCStep st i (str "<template>") =
      { sections := st.sections, current := some .template, content := [],
        startLine := i + 1 } := by
  unfold parseSFCStep
  rw [if_pos (by decide)]
  rw [hc]

/-! Section: Lemmas about the conflict ladder -/

theorem resolveGo_mem (id : Str) (S : List Str) :
    ∀ (fuel : Nat) (attempts : Nat) (r : Str), memS S r = true →
      (∀ k, attempts < k → k ≤ attempts + fuel → memS S (candidate id k) = true) →
      memS S (resolveGo id S fuel attempts r) = true := by
  intro fuel
  induction fuel with
  | zero => intro attempts r hr _; simpa [resolveGo] using hr
  | succ f ih =>
    intro attempts r hr hall
    unfold resolveGo
    rw [if_pos hr]
    exact ih (attempts + 1) (candidate id (attempts + 1))
      (hall (attempts + 1) (by omega) (by omega))
      (fun k hk1 hk2 => hall k (by omega) (by omega))

theorem resolveConflicts_exhausted (id : Str) (S : List Str) (now : Nat)
    (hid : memS S id = true)
    (hall : ((List.range 100).all (fun k => memS S (candidate id (k + 1)))) = true) :
    resolveConflicts id S now = id ++ '-' :: natToBase36 now := by
  unfold resolveConflicts
  rw [if_neg (by simp [hid])]
  have hall2 : ∀ k, 0 < k → k ≤ 100 → memS S (candidate id k) = true := by
    intro k h1 h2
    have h3 := List.all_eq_true.mp hall (k - 1) (by rw [List.mem_range]; omega)
    simpa [Nat.sub_add_cancel h1] using h3
  have hmem := resolveGo_mem id S 100 0 id hid (fun k h1 h2 => hall2 k h1 (by omega))
  simp only [hmem, if_true]

end AutoTestID

namespace AutoTestID

/-! Section: Claim theorems -/

/-- C9: joining the component list `["login","form"]` yields
`login-form` under kebab-case, `loginForm` under camelCase and
`login_form` under snake_case; prefix application prepends
`prefix + separator`, where the separator is `-` for kebab-case, `_`
for snake_case and empty for camelCase. -/
theorem c9_naming_strategy_and_separator :
    combineComponents [str "login", str "form"] ⟨.kebab, none⟩ = str "login-form" ∧
    combineComponents [str "login", str "form"] ⟨.camel, none⟩ = str "loginForm" ∧
    combineComponents [str "login", str "form"] ⟨.snake, none⟩ = str "login_form" ∧
    getSeparator .kebab = str "-" ∧ getSeparator .snake = str "_" ∧
    getSeparator .camel = [] ∧
    ∀ (id p : Str) (st : NamingStrategy),
      applyPfx id p st = p ++ getSeparator st.type ++ id :=
  ⟨by decide, by decide, by decide, by decide, by decide, by decide,
    fun _ _ _ => rfl⟩

/-- C10 counterexample: for the empty input string and the positive
maximum length 5, `sanitizeTestId` returns the empty string (the early
falsiness return precedes the `element` fallback), so the claimed
non-emptiness fails. -/
theorem c10_counterexample :
    ¬ (sanitizeTestId [] (some 5) ≠ [] ∧
       ∀ c ∈ sanitizeTestId [] (some 5), validIdChar c = true) := by
  decide

/-- C10 (amended): for every non-empty input string and positive
maximum length, `sanitizeTestId` returns a non-empty string all of
whose characters lie in `[a-z0-9_-]`; the `element` fallback covers
every case in which sanitation (truncation included) empties the id. -/
theorem c10_sanitize_nonempty_valid (id : Str) (m : Nat) (hid : id ≠ [])
    (_hm : 0 < m) :
    sanitizeTestId id (some m) ≠ [] ∧
    ∀ c ∈ sanitizeTestId id (some m), validIdChar c = true :=
  ⟨sanitizeTestId_ne_nil id m hid, fun _ hc => validIdChar_of_mem_sanitized hc⟩

/-- C10 witness: the amended statement at the concrete input `a`
with maximum length 3. -/
theorem c10_witness :
    sanitizeTestId (str "a") (some 3) ≠ [] ∧
    ∀ c ∈ sanitizeTestId (str "a") (some 3), validIdChar c = true :=
  c10_sanitize_nonempty_valid (str "a") 3 (by decide) (by decide)

/-- C4 counterexample: on the spec's end-to-end input the generator
does not return `test-login-form-sign-btn`. -/
theorem c4_counterexample :
    generate btnSignIn ctxLoginForm 0 ≠ str "test-login-form-sign-btn" := by
  decide

/-- C4 (amended): on the end-to-end input the generated value is
`test-loginform-submit-sign-btn`: the component sanitizer lowercases
before replacing, so `LoginForm` collapses to `loginform` without a
separator, and the `type="submit"` attribute contributes the vocabulary
keyword `submit` before the content token `sign`. -/
theorem c4_generated_value :
    generate btnSignIn ctxLoginForm 0 = str "test-loginform-submit-sign-btn" := by
  decide

/-- C1 (code bug): one engine pass over a file with two buttons whose
`name` attribute is `a+b` produces two transformations carrying the
same value `test-a-b-btn` — the conflict ladder runs before sanitation,
so the sanitized result re-enters the set of already-assigned values;
in particular the second `generate` call returns a value that is in
`existingIds` at the moment of return. -/
theorem c1_duplicate_ids_in_one_pass :
    (processParsed prDupNames defaultConfig 0).transformations.map
      (fun t => t.value) = [str "test-a-b-btn", str "test-a-b-btn"] ∧
    generate (btnPlus 3)
      ⟨none, [str "test-a-b-btn"], kebabStrategy, some (str "test")⟩ 0 =
      str "test-a-b-btn" ∧
    memS [str "test-a-b-btn"] (str "test-a-b-btn") = true :=
  ⟨by decide, by decide, by decide⟩

/-- C2 (code bug): with the configured maximum identifier length set
to 20 the engine still emits a 25-character value, because `generate`
sanitizes with the hard-coded maximum 50 and never consults
`maxIdLength`; every generated value is bounded by 50 instead. -/
theorem c2_maxIdLength_not_consulted :
    (processParsed (⟨[btnCheckout], []⟩ : ParseResult) cfg20 0).transformations.map
      (fun t => t.value) = [str "test-checkout-proceed-btn"] ∧
    (str "test-checkout-proceed-btn").length = 25 ∧
    ∀ (e : Element) (ctx : GenerationContext) (now : Nat),
      (generate e ctx now).length ≤ 50 :=
  ⟨by decide, by decide, generate_length_le⟩

end AutoTestID

namespace AutoTestID

/-- C3: the conflict ladder.  Eleven requests for `test-btn` against a
growing set yield `test-btn`, `test-btn-1` … `test-btn-10`; once the
attempt count exceeds 10 on a base id longer than 30 characters the
candidate is the base truncated to 25 characters plus the attempt
number (so a long base with `base` … `base-10` taken resolves to the
truncated form instead of `base-11`); and when the base and every one
of the 100 ladder candidates collide, the result is the base with the
base-36 rendering of the current timestamp appended. -/
theorem c3_conflict_ladder :
    (requestRepeatedly (str "test-btn") 0 11).2 = expectedEleven ∧
    resolveConflicts longBase longPrior 0 =
      str "abcdefghijklmnopqrstuvwxy" ++ '-' :: natToStr 11 ∧
    (∀ (id : Str) (n : Nat), 10 < n → 30 < id.length →
      candidate id n = id.take 25 ++ '-' :: natToStr n) ∧
    (∀ (id : Str) (S : List Str) (now : Nat), memS S id = true →
      ((List.range 100).all (fun k => memS S (candidate id (k + 1)))) = true →
      resolveConflicts id S now = id ++ '-' :: natToBase36 now) := by
  refine ⟨by decide, by decide, ?_, resolveConflicts_exhausted⟩
  intro id n h1 h2
  simp [candidate, h1, h2]

/-- C3 witness: the truncated-candidate clause at attempt 11 on the
36-character base, and the timestamp fallback on a set containing `x`
and all one hundred ladder candidates. -/
theorem c3_witness :
    candidate longBase 11 = longBase.take 25 ++ '-' :: natToStr 11 ∧
    resolveConflicts (str "x") conflictSetX 7 =
      str "x" ++ '-' :: natToBase36 7 :=
  ⟨c3_conflict_ladder.2.2.1 longBase 11 (by decide) (by decide),
   c3_conflict_ladder.2.2.2 (str "x") conflictSetX 7 (by decide) (by decide)⟩

/-- C5 (code bug): one engine pass over a minimal SFC leaves the text
unchanged (the planned transformation fails with an invalid relative
line: the rewriter computes `position.line - templateStartLine`, one
line past the element), so a second pass over the pass's output plans
one transformation again instead of zero. -/
theorem c5_second_pass_not_empty :
    vuePassOutput sfcOneDiv defaultConfig 0 = sfcOneDiv ∧
    (vuePassTransformations sfcOneDiv defaultConfig 0).length = 1 ∧
    (vueTransform sfcOneDiv (vuePassTransformations sfcOneDiv defaultConfig 0)).errors.map
      (fun e => e.message) =
      [str "Failed to apply transformation: " ++ str "Invalid line number"] ∧
    (vuePassTransformations (vuePassOutput sfcOneDiv defaultConfig 0)
      defaultConfig 0).length = 1 :=
  ⟨by decide, by decide, by decide, by decide⟩

/-- C6: failure isolation in both transform paths.  A missing template
section makes the Vue transform return the original content with one
error diagnostic and no transformations; one failing transformation in
the shared application loop leaves the running state exactly as if the
transformation were absent, contributes exactly one diagnostic, and the
remaining transformations are still applied; and in the React path a
parser or printer failure returns the original content with one error
diagnostic. -/
theorem c6_failure_isolation :
    (∀ (content : Str) (ts : List Transformation),
      (parseSFC content).template = none →
      vueTransform content ts =
        ⟨content, [],
          [⟨str "No template section found for transformation", none,
            .error⟩]⟩) ∧
    (∀ (σ : Type) (app : σ → Transformation → Except Str σ) (s : σ)
      (pre post : List Transformation) (t : Transformation) (m : Str),
      app (runTransforms app s pre).1 t = .error m →
      runTransforms app s (pre ++ t :: post) =
        ((runTransforms app s (pre ++ post)).1,
          (runTransforms app s pre).2 ++
            ⟨str "Failed to apply transformation: " ++ m, some t.position,
              .error⟩ ::
            (runTransforms app (runTransforms app s pre).1 post).2)) ∧
    (∀ (α : Type) (m : Str) (app : α → Transformation → Except Str α)
      (gen : α → Except Str Str) (content : Str) (ts : List Transformation),
      reactTransform (.error m) app gen content ts =
        ⟨content, [], [⟨str "Transform error: " ++ m, none, .error⟩]⟩) ∧
    (∀ (α : Type) (ast : α) (app : α → Transformation → Except Str α)
      (gen : α → Except Str Str) (content : Str) (ts : List Transformation)
      (m : Str), gen (runTransforms app ast ts).1 = .error m →
      reactTransform (.ok ast) app gen content ts =
        ⟨content, [], [⟨str "Transform error: " ++ m, none, .error⟩]⟩) := by
  refine ⟨?_, ?_, ?_, ?_⟩
  · intro content ts h
    simp [vueTransform, h]
  · intro σ app s pre post t m h
    rw [runTransforms_append app s pre (t :: post),
        runTransforms_append app s pre post,
        runTransforms_cons_err app h post]
  · intro α m app gen content ts
    rfl
  · intro α ast app gen content ts m h
    simp [reactTransform, h]

/-- C6 witness: the three failure shapes at concrete inputs — a
template-less file, an always-failing application on a singleton list,
and failing Babel services. -/
theorem c6_witness :
    vueTransform (str "hello") [] =
      ⟨str "hello", [],
        [⟨str "No template section found for transformation", none,
          .error⟩]⟩ ∧
    runTransforms failAppStr [] ([] ++ demoTrans :: []) =
      ((runTransforms failAppStr [] ([] ++ [])).1,
        (runTransforms failAppStr [] []).2 ++
          ⟨str "Failed to apply transformation: " ++ [],
            some demoTrans.position, .error⟩ ::
          (runTransforms failAppStr (runTransforms failAppStr [] []).1 []).2) ∧
    reactTransform (.error (str "boom")) failAppStr failGen (str "c") [] =
      ⟨str "c", [], [⟨str "Transform error: " ++ str "boom", none, .error⟩]⟩ ∧
    reactTransform (Except.ok ([] : Str)) failAppStr failGen (str "c") [] =
      ⟨str "c", [], [⟨str "Transform error: " ++ [], none, .error⟩]⟩ :=
  ⟨c6_failure_isolation.1 (str "hello") [] (by decide),
   c6_failure_isolation.2.1 Str failAppStr [] [] [] demoTrans [] rfl,
   c6_failure_isolation.2.2.1 Str (str "boom") failAppStr failGen (str "c") [],
   c6_failure_isolation.2.2.2 Str [] failAppStr failGen (str "c") [] [] rfl⟩

/-- C7 counterexample: a parse result whose only diagnostic is a
warning, next to an eligible element, still aborts the file: the
engine returns no transformations and reports failure, while the claim
says warnings do not stop the file. -/
theorem c7_counterexample_warning_aborts :
    (processParsed prWarn defaultConfig 0).transformations = [] ∧
    (processParsed prWarn defaultConfig 0).success = false ∧
    (prWarn.errors.all (fun e => e.severity = .warning)) = true ∧
    prWarn.elements.filter
      (fun e => shouldAddTestId e defaultConfig.includeElementTypes) ≠ [] :=
  ⟨by decide, by decide, by decide, by decide⟩

/-- C7 (amended): any parse diagnostic — warning or error — aborts the
file's processing: `processFile` returns failure with no
transformations whenever the parser reports at least one issue, and
generation proceeds exactly when the parser reports none. -/
theorem c7_any_diagnostic_aborts (pr : ParseResult) (cfg : Config) (now : Nat) :
    (pr.errors ≠ [] →
      (processParsed pr cfg now).success = false ∧
      (processParsed pr cfg now).transformations = []) ∧
    (pr.errors = [] → (processParsed pr cfg now).success = true) := by
  constructor
  · intro h
    unfold processParsed
    rw [if_pos h]
    exact ⟨rfl, rfl⟩
  · intro h
    unfold processParsed
    rw [if_neg (by simp [h])]

/-- C7 witness: the amended statement at the warning-carrying parse
result and at a diagnostic-free one. -/
theorem c7_witness :
    ((processParsed prWarn defaultConfig 0).success = false ∧
      (processParsed prWarn defaultConfig 0).transformations = []) ∧
    (processParsed (⟨[], []⟩ : ParseResult) defaultConfig 0).success = true :=
  ⟨(c7_any_diagnostic_aborts prWarn defaultConfig 0).1 (by decide),
   (c7_any_diagnostic_aborts ⟨[], []⟩ defaultConfig 0).2 rfl⟩

/-- C8 counterexample: in a file with two template open/close pairs
(`A` on lines 1-1, `B` on lines 4-4 of the section bodies), the
recorded template section is the second pair's, not the first's. -/
theorem c8_counterexample_last_pair_wins :
    (parseSFC sfcTwoTemplates).template = some ⟨str "B", 4, 4⟩ ∧
    (⟨str "B", 4, 4⟩ : SFCSection) ≠ ⟨str "A", 1, 1⟩ :=
  ⟨by decide, by decide⟩

end AutoTestID

namespace AutoTestID

theorem parseSFCGo_cons (st : SFCState) (i : Nat) (l : Str) (ls : List Str) :
    parseSFCGo st i (l :: ls) = parseSFCGo (parseSFCStep st i l) (i + 1) ls := rfl

/-- C8 (amended): when a file consists of two template open/close
pairs (with no other section-marker lines inside either body), the
recorded template section is the LAST pair's: its content, start line
and end line are those of the second pair; `saveSection` overwrites
unconditionally. -/
theorem c8_amended_last_pair_recorded (c1 c2 : List Str)
    (h1 : ∀ l ∈ c1, isSectionMarker l = false)
    (h2 : ∀ l ∈ c2, isSectionMarker l = false) :
    parseSFCLines (str "<template>" :: c1 ++ (str "</template>" ::
        str "<template>" :: (c2 ++ [str "</template>"]))) =
      { template := some ⟨joinLines c2, c1.length + 3,
          c1.length + 3 + c2.length - 1⟩,
        script := none, style := none } := by
  unfold parseSFCLines
  erw [parseSFCGo_cons, parseSFCStep_openTemplate _ 0 rfl]
  erw [parseSFCGo_append c1 _ _ _]
  erw [parseSFCGo_content c1 _ _ .template rfl h1]
  erw [parseSFCGo_cons, parseSFCStep_close _ _ .template rfl]
  erw [parseSFCGo_cons, parseSFCStep_openTemplate _ _ rfl]
  erw [parseSFCGo_append c2 _ _ _]
  erw [parseSFCGo_content c2 _ _ .template rfl h2]
  erw [parseSFCGo_cons, parseSFCStep_close _ _ .template rfl]
  show finishSFC _ = _
  unfold finishSFC
  simp only [saveSection, List.nil_append, parseSFCGo]
  have e1 : 0 + 1 + c1.length + 1 + 1 = c1.length + 3 := by omega
  rw [e1]

/-- C8 witness: the amended statement at the two-pair file with bodies
`A` and `B`. -/
theorem c8_witness :
    parseSFCLines (str "<template>" :: [str "A"] ++ (str "</template>" ::
        str "<template>" :: ([str "B"] ++ [str "</template>"]))) =
      { template := some ⟨joinLines [str "B"], 4, 4⟩,
        script := none, style := none } :=
  c8_amended_last_pair_recorded [str "A"] [str "B"] (by decide) (by decide)

end AutoTestID
